import Mathlib

/-!
Shallow embedding of the meridian remeshing core of geovista
(`src/geovista/filters.py`), for checking the natural-language
specification against the code.

Meshes are modelled as lists of points, polygonal cells (lists of point
indices) and string-keyed integer attribute arrays, mirroring the
pyvista `PolyData` data the code manipulates.  Floating point longitude
arithmetic is modelled over `ℚ`.  External collaborators that are not
part of this repository's `src/` tree (the geovista `common` module and
the VTK intersection engine) are modelled from the specification, as
noted on each definition.
-/

/-- A surface mesh: 3-D points, polygonal cells given as lists of point
indices, and per-point / per-cell integer attribute arrays keyed by
name (the pyvista `point_data` / `cell_data` mappings). -/
structure Mesh where
  points : List (ℚ × ℚ × ℚ)
  cells : List (List ℕ)
  pointData : List (String × List ℤ)
  cellData : List (String × List ℤ)
deriving Repr, DecidableEq

/-- The empty mesh `pv.PolyData()`: zero points, zero cells, no data. -/
def emptyMesh : Mesh := ⟨[], [], [], []⟩

/-- Key membership in an attribute mapping (`name in mesh.cell_data`). -/
def hasKey (d : List (String × List ℤ)) (k : String) : Bool :=
  d.any (fun p => p.1 == k)

/-- Attribute lookup (`mesh.cell_data[name]`). -/
def lookupData (d : List (String × List ℤ)) (k : String) : Option (List ℤ) :=
  (d.find? (fun p => p.1 == k)).map (fun p => p.2)

/-- Attribute assignment (`mesh.cell_data[name] = arr`): replaces the
entry in place when the key is present, appends a new entry otherwise
(keys are unique in every mapping this development builds). -/
def setData : List (String × List ℤ) → String → List ℤ →
    List (String × List ℤ)
  | [], k, v => [(k, v)]
  | p :: t, k, v => if p.1 == k then (k, v) :: t else p :: setData t k v

/-- Attribute deletion (`del mesh.point_data[name]`). -/
def delData (d : List (String × List ℤ)) (k : String) :
    List (String × List ℤ) :=
  d.filter (fun p => ¬ p.1 == k)

/-- Modelled from the spec: `GV_CELL_IDS` is the reserved cell-attribute
key (`origin_cell_id`, §3) defined in `geovista.common`, a module not
under `src/`; only its identity matters here. -/
def GV_CELL_IDS : String := "gvOriginalCellIds"

/-- Modelled from the spec: `GV_POINT_IDS` is the reserved point-attribute
key (`origin_point_id`, §3) defined in `geovista.common`. -/
def GV_POINT_IDS : String := "gvOriginalPointIds"

/-- Modelled from the spec: `GV_REMESH_POINT_IDS` is the `seam_class`
staging point-attribute key (§3) defined in `geovista.common`. -/
def GV_REMESH_POINT_IDS : String := "gvRemeshPointIds"

/-- `vtkIntersectionPolyDataFilter` intersection point array name
(`filters.py` line 44). -/
def VTK_BOUNDARY_MASK : String := "BoundaryPoints"

/-- Modelled from the spec: `REMESH_SEAM` is the `SEAM` sentinel of the
`seam_class` attribute (§3), defined in `geovista.common`; the spec fixes
it only as one of three distinct sentinel values, negative so it cannot
collide with a provenance index. -/
def REMESH_SEAM : ℤ := -3

/-- Modelled from the spec: `REMESH_JOIN` is the `JOIN` sentinel of the
`seam_class` attribute (§3), defined in `geovista.common`; distinct from
`REMESH_SEAM`. -/
def REMESH_JOIN : ℤ := -2

/-- Marker for remesh filter eastern cell boundary point
(`filters.py` line 38: `REMESH_SEAM_EAST = REMESH_SEAM - 1`). -/
def REMESH_SEAM_EAST : ℤ := REMESH_SEAM - 1

/-- Modelled from the spec: `wrap` from `geovista.common` is the
`normalize_angle(degrees) -> degrees in [-180, 180)` collaborator (§6). -/
def wrap (d : ℚ) : ℚ := d - 360 * ⌊(d + 180) / 360⌋

/-- Modelled from the spec: `triangulated` from `geovista.common` is the
`is_triangulated(mesh) -> bool` collaborator (§6): every cell is a
triangle. -/
def triangulated (m : Mesh) : Bool := m.cells.all (fun c => c.length == 3)

/-- Fan decomposition of one polygon cell `[p0, p1, ..., pk]` into the
triangles `[p0, pi, p(i+1)]` (§4.1 fan rule). -/
def fanTriangles : List ℕ → List (List ℕ)
  | [] => []
  | p0 :: rest => (rest.zip rest.tail).map (fun pr => [p0, pr.1, pr.2])

/-- Replicate each attribute value over the fragments of its cell:
`replicateBy vals counts` repeats `vals[i]` exactly `counts[i]` times. -/
def replicateBy : List ℤ → List ℕ → List ℤ
  | _, [] => []
  | [], _ :: _ => []
  | v :: vs, n :: ns => List.replicate n v ++ replicateBy vs ns

/-- `mesh.triangulate()`: decompose every polygon into fan triangles,
carrying each cell's attribute values to all of its fragments
(points and point data unchanged). -/
def triangulateMesh (m : Mesh) : Mesh :=
  let counts := m.cells.map (fun c => (fanTriangles c).length)
  { m with
    cells := (m.cells.map fanTriangles).flatten
    cellData := m.cellData.map (fun p => (p.1, replicateBy p.2 counts)) }

/-- The Provenance Tagger (`filters.py` lines 115–119): create
`GV_CELL_IDS` / `GV_POINT_IDS` as `0..n-1` when absent, leave them
untouched when present. -/
def tagMesh (m : Mesh) : Mesh :=
  let m1 :=
    if hasKey m.cellData GV_CELL_IDS then m
    else { m with
           cellData := setData m.cellData GV_CELL_IDS
             ((List.range m.cells.length).map Int.ofNat) }
  if hasKey m1.pointData GV_POINT_IDS then m1
  else { m1 with
         pointData := setData m1.pointData GV_POINT_IDS
           ((List.range m1.points.length).map Int.ofNat) }

/-- The error taxonomy of the remeshing core (§7). -/
inductive RemeshError where
  | emptyMesh : RemeshError
  | invalidArgument : RemeshError
deriving Repr, DecidableEq

/-- The cutting-surface patch: the flat plane mesh in the unrotated
frame together with the rotation angle about the polar axis
(`rotate_z(meridian)` is kept symbolic because a degree rotation is not
rational arithmetic). -/
structure Patch where
  plane : Mesh
  angle : ℚ
deriving Repr, DecidableEq

/-- The external `pv.Plane` constructor as called by `filters.py`
lines 130–137: a one-quad plane with normal `(0, 1, 0)`, centered at
`(radius / 2, 0, 0)`, in-plane extents `i_size = radius` along x and
`j_size = 2 * radius` along z. -/
def pvPlane (radius : ℚ) : Mesh :=
  { points := [(0, 0, -radius), (radius, 0, -radius),
               (radius, 0, radius), (0, 0, radius)]
    cells := [[0, 1, 2, 3]]
    pointData := []
    cellData := [] }

/-- The Cutting Surface Builder (`filters.py` lines 130–139): build the
plane, rotate it to the meridian and triangulate it.  The source
performs no validation of `radius`, so no error is ever produced; the
`Except` result type records that the construction is where a rejection
would have to be signalled. -/
def buildCuttingSurface (radius meridian : ℚ) : Except RemeshError Patch :=
  .ok { plane := triangulateMesh (pvPlane radius), angle := meridian }

/-- One cell's west/east classification (`filters.py` lines 177–180):
with `delta = lon - meridian`, the cell is west when
`(delta < 0 and delta > -180) or delta > 180`. -/
def cellIsWest (lon meridian : ℚ) : Bool :=
  let delta := lon - meridian
  (decide (delta < 0) && decide (delta > -180)) || decide (delta > 180)

/-- Masked assignment `arr[mask] = v` over parallel lists (numpy boolean
indexing); positions without a mask entry are left unchanged. -/
def writeMask : List ℤ → List Bool → ℤ → List ℤ
  | [], _, _ => []
  | x :: xs, [], _ => x :: xs
  | x :: xs, b :: bs, v => (if b then v else x) :: writeMask xs bs v

/-- Keep the entries of `xs` whose parallel mask entry is `true`
(`extract_cells(mask)` cell selection). -/
def keptVals {α : Type} (xs : List α) (mask : List Bool) : List α :=
  (xs.zip mask).filterMap (fun p => if p.2 then some p.1 else none)

/-- The points referenced by at least one of the given cells, in
ascending original index order. -/
def usedPoints (cells : List (List ℕ)) (n : ℕ) : List ℕ :=
  (List.range n).filter (fun i => cells.any (fun c => c.contains i))

/-- Gather an attribute array at the given original indices. -/
def gather (vals : List ℤ) (idxs : List ℕ) : List ℤ :=
  idxs.map (fun i => vals.getD i 0)

/-- `mesh.extract_cells(mask)` followed by
`cast_UnstructuredGrid_to_PolyData`: keep the cells whose mask entry is
true, keep only the points they reference (re-indexed), and carry all
point and cell attributes forward (the vtkGeometryFilter pass on a
surface extraction returns the same polygonal cells). -/
def extractCells (m : Mesh) (mask : List Bool) : Mesh :=
  let cells := keptVals m.cells mask
  let used := usedPoints cells m.points.length
  { points := used.map (fun i => m.points.getD i (0, 0, 0))
    cells := cells.map (fun c => c.map (fun i => used.indexOf i))
    pointData := m.pointData.map (fun p => (p.1, gather p.2 used))
    cellData := m.cellData.map (fun p => (p.1, keptVals p.2 mask)) }

/-- The `seam_class = JOIN` overwrite (`filters.py` lines 203–204 and
210–211): every entry different from the seam sentinel becomes
`REMESH_JOIN`. -/
def overwriteJoin (vals : List ℤ) (seam : ℤ) : List ℤ :=
  vals.map (fun x => if x == seam then x else REMESH_JOIN)

/-- Replace a point-data array on a mesh. -/
def setPD (m : Mesh) (k : String) (v : List ℤ) : Mesh :=
  { m with pointData := setData m.pointData k v }

/-- Modelled from the spec: `sanitize_data` from `geovista.common`
(§4.6 Schema Sanitizer, an external collaborator not under `src/`).
Its contract only harmonizes attribute schemas across the three output
meshes; the spec assigns it no mutation of the attributes this
development reasons about (§6 still guarantees the boundary mask on
`remeshed` only if requested and `seam_class` on `west`/`east`), so it
is modelled as the identity. -/
def sanitize_data (t : Mesh × Mesh × Mesh) : Mesh × Mesh × Mesh := t

/-- The per-cell west mask of `filters.py` lines 175–180, over the cell
centroid longitudes. -/
def westMaskList (lons : List ℚ) (meridian : ℚ) : List Bool :=
  lons.map (fun lon => cellIsWest lon meridian)

/-- `np.asarray(remeshed.point_data[VTK_BOUNDARY_MASK], dtype=bool)`
(`filters.py` line 193): the intersection point mask, nonzero entries
counting as true. -/
def boundaryMaskOf (m : Mesh) : List Bool :=
  ((lookupData m.pointData VTK_BOUNDARY_MASK).getD []).map
    (fun x => decide (x ≠ 0))

/-- `filters.py` lines 194–195: drop the boundary mask array unless the
caller asked for it. -/
def dropBoundary (m : Mesh) (boundary : Bool) : Mesh :=
  if boundary then m
  else { m with pointData := delData m.pointData VTK_BOUNDARY_MASK }

/-- The `GV_POINT_IDS` point array of a mesh
(`remeshed[GV_POINT_IDS]`, `filters.py` line 197). -/
def idsOf (m : Mesh) : List ℤ :=
  (lookupData m.pointData GV_POINT_IDS).getD []

/-- The intersected mesh staged for the west extraction
(`filters.py` lines 194–199): boundary mask dropped unless requested,
`GV_REMESH_POINT_IDS` set to a copy of `GV_POINT_IDS` with the boundary
points overwritten by `REMESH_SEAM`. -/
def stagedWest (remeshed0 : Mesh) (boundary : Bool) : Mesh :=
  let r1 := dropBoundary remeshed0 boundary
  setPD r1 GV_REMESH_POINT_IDS
    (writeMask (idsOf r1) (boundaryMaskOf remeshed0) REMESH_SEAM)

/-- The intersected mesh staged for the east extraction
(`filters.py` line 206): the boundary points of the staging array are
overwritten again, by `REMESH_SEAM_EAST`. -/
def stagedEast (remeshed0 : Mesh) (boundary : Bool) : Mesh :=
  let r1 := dropBoundary remeshed0 boundary
  setPD (stagedWest remeshed0 boundary) GV_REMESH_POINT_IDS
    (writeMask (writeMask (idsOf r1) (boundaryMaskOf remeshed0) REMESH_SEAM)
      (boundaryMaskOf remeshed0) REMESH_SEAM_EAST)

/-- The `seam_class = JOIN` overwrite applied to an extracted half
(`filters.py` lines 203–204 and 210–211): every entry of the staging
array different from the seam sentinel becomes `REMESH_JOIN`. -/
def joinPass (ext : Mesh) (s : ℤ) : Mesh :=
  setPD ext GV_REMESH_POINT_IDS
    (overwriteJoin ((lookupData ext.pointData GV_REMESH_POINT_IDS).getD []) s)

/-- The Hemisphere Partitioner and Seam Classifier: the `else` branch of
`filters.py` lines 173–214, taking the intersected mesh, its per-cell
centroid longitudes (the `to_xy0(cell_centers)` values, produced by the
external projection collaborator of §6) and the normalized meridian. -/
def splitStage (remeshed0 : Mesh) (lons : List ℚ) (meridian : ℚ)
    (boundary : Bool) : Mesh × Mesh × Mesh :=
  let wMask := westMaskList lons meridian
  let west := joinPass (extractCells (stagedWest remeshed0 boundary) wMask)
    REMESH_SEAM
  let east := joinPass
    (extractCells (stagedEast remeshed0 boundary) (wMask.map not))
    REMESH_SEAM_EAST
  let rOut := { stagedEast remeshed0 boundary with
                pointData := delData (stagedEast remeshed0 boundary).pointData
                  GV_REMESH_POINT_IDS }
  sanitize_data (rOut, west, east)

/-- The output of the Intersection Engine: the split copy of the input
mesh (`_get_output(alg, oport=1)`, carrying the `BoundaryPoints` mask
the filter is configured to always generate) together with the centroid
longitudes of its cells, the `to_xy0(remeshed.cell_centers())[:, 0]`
values of `filters.py` lines 175–176. -/
structure IntersectOut where
  mesh : Mesh
  lons : List ℚ
deriving Repr, DecidableEq

/-- The normalized mesh handed to the intersection engine
(`filters.py` lines 113–128): a deep copy of the input, provenance
tagged, then triangulated unless already triangular. -/
def remeshPoly0 (mesh : Mesh) : Mesh :=
  let poly0 := tagMesh mesh
  if triangulated poly0 then poly0 else triangulateMesh poly0

/-- `remesh` (`filters.py` lines 82–216).  The two collaborators that
are external to `src/` are parameters: `calcRadius` is the
`bounding_radius` collaborator of §6 (its value only sizes the cutting
plane) and `intersect` is the Intersection Engine of §4.4
(`vtkIntersectionPolyDataFilter`), which receives the normalized,
tagged, triangulated mesh and the cutting-surface patch.  The VTK
global warning-display flag is threaded explicitly as a `Bool`
(`true` = warnings displayed), and the result is the pair of the
returned triple (or the raised error) and the final global flag. -/
def remesh (calcRadius : Mesh → ℚ) (intersect : Mesh → Patch → IntersectOut)
    (mesh : Mesh) (meridian0 : ℚ) (boundary check warnings : Bool)
    (warnDisplay : Bool) :
    Except RemeshError (Mesh × Mesh × Mesh) × Bool :=
  let w1 := if ¬ warnings then false else warnDisplay
  if mesh.cells.length = 0 then (.error .emptyMesh, w1)
  else
    let meridian := wrap meridian0
    match buildCuttingSurface (calcRadius mesh) meridian with
    | .error e => (.error e, w1)
    | .ok poly1 =>
      let out := intersect (remeshPoly0 mesh) poly1
      let w2 := if ¬ warnings then true else w1
      if out.mesh.cells.length = 0 then
        (.ok (out.mesh, emptyMesh, emptyMesh), w2)
      else
        (.ok (splitStage out.mesh out.lons meridian boundary), w2)

/-- Python exception values arising in
`cast_UnstructuredGrid_to_PolyData`. -/
inductive PyErr where
  | typeError (msg : String)
  | attributeError (msg : String)
  | indexError
deriving Repr, DecidableEq

/-- Python values passed to `cast_UnstructuredGrid_to_PolyData`: a
`pyvista.UnstructuredGrid` (carrying the boundary surface that the
external `vtkGeometryFilter` extracts from it), a `pyvista.PolyData`,
or a non-mesh value such as an `int` or a `str`. -/
inductive PyVal where
  | unstructuredGrid (surface : Mesh)
  | polyData (m : Mesh)
  | pyInt (n : ℤ)
  | pyStr (s : String)
deriving Repr, DecidableEq

/-- The optional `clean` pass of the surface extraction (§4.1): merge
exactly coincident points and drop points referenced by no cell. -/
def cleanMesh (m : Mesh) : Mesh :=
  let merged := { m with
    cells := m.cells.map (fun c =>
      c.map (fun i => m.points.indexOf (m.points.getD i (0, 0, 0)))) }
  extractCells merged (List.replicate merged.cells.length true)

/-- The expression `type(mesh).split(" ")[1][:-1]` of `filters.py`
line 66, evaluated under Python semantics: `type(mesh)` is a class
object, which has no `split` attribute, so the expression raises
`AttributeError` — except when `mesh` is a `str`, where
`str.split(" ")` is the unbound method applied to `" "` as `self`,
yielding `[]`, so the `[1]` subscript raises `IndexError`.  The
intended string (the class name) is never produced. -/
def typeSplitExpr (v : PyVal) : Except PyErr String :=
  match v with
  | .pyStr _ => .error .indexError
  | _ => .error (.attributeError "type object has no attribute 'split'")

/-- `cast_UnstructuredGrid_to_PolyData` (`filters.py` lines 53–79):
pass an `UnstructuredGrid` through `vtkGeometryFilter` (optionally
cleaned); for any other input, evaluate the error message expression of
line 66 — which itself raises — before the `raise TypeError` of line 68
could run. -/
def cast_UnstructuredGrid_to_PolyData (mesh : PyVal) (clean : Bool) :
    Except PyErr Mesh :=
  match mesh with
  | .unstructuredGrid surface =>
      .ok (if clean then cleanMesh surface else surface)
  | other =>
      match typeSplitExpr other with
      | .error e => .error e
      | .ok dtype =>
          .error (.typeError
            ("Expected a 'pyvista.UnstructuredGrid', got " ++ dtype ++ "."))

/-! ### Basic lemmas about the attribute mappings -/

theorem lookupData_cons (p : String × List ℤ) (d : List (String × List ℤ))
    (k : String) :
    lookupData (p :: d) k = if p.1 == k then some p.2 else lookupData d k := by
  cases h : p.1 == k <;> simp [lookupData, List.find?, h]

theorem lookupData_setData_self (d : List (String × List ℤ)) (k : String)
    (v : List ℤ) : lookupData (setData d k v) k = some v := by
  induction d with
  | nil => simp [setData, lookupData, List.find?]
  | cons p t ih =>
    by_cases hp : p.1 = k
    · simp [setData, hp, lookupData_cons]
    · simp [setData, hp, lookupData_cons, ih]

theorem lookupData_setData_ne (d : List (String × List ℤ)) (k : String)
    (v : List ℤ) (k' : String) (h : k' ≠ k) :
    lookupData (setData d k v) k' = lookupData d k' := by
  induction d with
  | nil =>
    have hkk : (k == k') = false := by simpa using Ne.symm h
    simp [setData, lookupData, List.find?, hkk]
  | cons p t ih =>
    by_cases hp : p.1 = k
    · have hkk : ¬ k = k' := Ne.symm h
      simp [setData, hp, lookupData_cons, hkk]
    · simp [setData, hp, lookupData_cons, ih]

theorem hasKey_eq_isSome (d : List (String × List ℤ)) (k : String) :
    hasKey d k = (lookupData d k).isSome := by
  induction d with
  | nil => simp [hasKey, lookupData]
  | cons p t ih =>
    cases h : p.1 == k <;> simp [hasKey, lookupData_cons, h]
    exact (by simpa [hasKey] using ih)

theorem hasKey_setData_self (d : List (String × List ℤ)) (k : String)
    (v : List ℤ) : hasKey (setData d k v) k = true := by
  simp [hasKey_eq_isSome, lookupData_setData_self]

theorem hasKey_setData_ne (d : List (String × List ℤ)) (k : String)
    (v : List ℤ) (k' : String) (h : k' ≠ k) :
    hasKey (setData d k v) k' = hasKey d k' := by
  simp [hasKey_eq_isSome, lookupData_setData_ne d k v k' h]

theorem delData_cons (p : String × List ℤ) (t : List (String × List ℤ))
    (k : String) :
    delData (p :: t) k = if p.1 = k then delData t k else p :: delData t k := by
  by_cases hp : p.1 = k <;> simp [delData, hp]

theorem lookupData_delData_self (d : List (String × List ℤ)) (k : String) :
    lookupData (delData d k) k = none := by
  induction d with
  | nil => simp [delData, lookupData]
  | cons p t ih =>
    by_cases hp : p.1 = k
    · simpa [delData, hp] using ih
    · simpa [delData, hp, lookupData_cons] using ih

theorem hasKey_delData_self (d : List (String × List ℤ)) (k : String) :
    hasKey (delData d k) k = false := by
  simp [hasKey_eq_isSome, lookupData_delData_self]

theorem lookupData_delData_ne (d : List (String × List ℤ)) (k : String)
    (k' : String) (h : k' ≠ k) :
    lookupData (delData d k) k' = lookupData d k' := by
  induction d with
  | nil => simp [delData]
  | cons p t ih =>
    rw [delData_cons]
    by_cases hp : p.1 = k
    · rw [if_pos hp, ih, lookupData_cons]
      have hfk : (p.1 == k') = false := by simp [hp, Ne.symm h]
      simp [hfk]
    · rw [if_neg hp, lookupData_cons, lookupData_cons, ih]

theorem hasKey_delData_ne (d : List (String × List ℤ)) (k k' : String)
    (h : k' ≠ k) : hasKey (delData d k) k' = hasKey d k' := by
  simp [hasKey_eq_isSome, lookupData_delData_ne d k k' h]

theorem lookupData_map_snd (d : List (String × List ℤ))
    (f : List ℤ → List ℤ) (k : String) :
    lookupData (d.map (fun p => (p.1, f p.2))) k = (lookupData d k).map f := by
  induction d with
  | nil => simp [lookupData]
  | cons p t ih => cases h : p.1 == k <;> simp [lookupData_cons, h, ih]

/-! ### Lemmas about masked selection and the attribute arrays -/

theorem keptVals_nil {α : Type} (mask : List Bool) :
    keptVals ([] : List α) mask = [] := by
  simp [keptVals]

theorem keptVals_cons_cons {α : Type} (x : α) (xs : List α) (b : Bool)
    (bs : List Bool) :
    keptVals (x :: xs) (b :: bs) =
      if b then x :: keptVals xs bs else keptVals xs bs := by
  cases b <;> simp [keptVals]

theorem perm_keptVals_append {α : Type} (xs : List α) (mask : List Bool)
    (h : mask.length = xs.length) :
    (keptVals xs mask ++ keptVals xs (mask.map not)).Perm xs := by
  induction xs generalizing mask with
  | nil => simp [keptVals_nil]
  | cons x xs ih =>
    cases mask with
    | nil => simp at h
    | cons b bs =>
      have hlen : bs.length = xs.length := by simpa using h
      cases b with
      | true =>
        simpa [keptVals_cons_cons] using (ih bs hlen).cons x
      | false =>
        simp only [List.map_cons, Bool.not_false, keptVals_cons_cons,
          if_neg Bool.false_ne_true, if_pos rfl]
        exact List.perm_middle.trans ((ih bs hlen).cons x)

theorem keptVals_length_add {α : Type} (xs : List α) (mask : List Bool)
    (h : mask.length = xs.length) :
    (keptVals xs mask).length + (keptVals xs (mask.map not)).length =
      xs.length := by
  have := (perm_keptVals_append xs mask h).length_eq
  simpa using this

theorem writeMask_length (xs : List ℤ) (mask : List Bool) (v : ℤ) :
    (writeMask xs mask v).length = xs.length := by
  induction xs generalizing mask with
  | nil => cases mask <;> simp [writeMask]
  | cons x xs ih => cases mask <;> simp [writeMask, ih]

theorem overwriteJoin_length (vals : List ℤ) (s : ℤ) :
    (overwriteJoin vals s).length = vals.length := by
  simp [overwriteJoin]

theorem mem_overwriteJoin (vals : List ℤ) (s : ℤ) (x : ℤ)
    (hx : x ∈ overwriteJoin vals s) : x = s ∨ x = REMESH_JOIN := by
  simp only [overwriteJoin, List.mem_map] at hx
  obtain ⟨a, -, ha⟩ := hx
  by_cases h : a = s
  · left; rw [← ha]; simp [h]
  · right; rw [← ha]; simp [h]

theorem gather_length (vals : List ℤ) (idxs : List ℕ) :
    (gather vals idxs).length = idxs.length := by
  simp [gather]

/-! ### Structural lemmas about the pipeline stages -/

theorem setPD_points (m : Mesh) (k : String) (v : List ℤ) :
    (setPD m k v).points = m.points := rfl

theorem setPD_cells (m : Mesh) (k : String) (v : List ℤ) :
    (setPD m k v).cells = m.cells := rfl

theorem setPD_cellData (m : Mesh) (k : String) (v : List ℤ) :
    (setPD m k v).cellData = m.cellData := rfl

theorem dropBoundary_cells (m : Mesh) (b : Bool) :
    (dropBoundary m b).cells = m.cells := by
  cases b <;> rfl

theorem dropBoundary_cellData (m : Mesh) (b : Bool) :
    (dropBoundary m b).cellData = m.cellData := by
  cases b <;> rfl

theorem dropBoundary_points (m : Mesh) (b : Bool) :
    (dropBoundary m b).points = m.points := by
  cases b <;> rfl

theorem stagedWest_cells (m : Mesh) (b : Bool) :
    (stagedWest m b).cells = m.cells := by
  rw [stagedWest, setPD_cells, dropBoundary_cells]

theorem stagedWest_cellData (m : Mesh) (b : Bool) :
    (stagedWest m b).cellData = m.cellData := by
  rw [stagedWest, setPD_cellData, dropBoundary_cellData]

theorem stagedWest_points (m : Mesh) (b : Bool) :
    (stagedWest m b).points = m.points := by
  rw [stagedWest, setPD_points, dropBoundary_points]

theorem stagedEast_cells (m : Mesh) (b : Bool) :
    (stagedEast m b).cells = m.cells := by
  rw [stagedEast, setPD_cells, stagedWest_cells]

theorem stagedEast_cellData (m : Mesh) (b : Bool) :
    (stagedEast m b).cellData = m.cellData := by
  rw [stagedEast, setPD_cellData, stagedWest_cellData]

theorem stagedEast_points (m : Mesh) (b : Bool) :
    (stagedEast m b).points = m.points := by
  rw [stagedEast, setPD_points, stagedWest_points]

theorem stagedWest_lookup (m : Mesh) (b : Bool) :
    lookupData (stagedWest m b).pointData GV_REMESH_POINT_IDS =
      some (writeMask (idsOf (dropBoundary m b)) (boundaryMaskOf m)
        REMESH_SEAM) := by
  rw [stagedWest]
  exact lookupData_setData_self _ _ _

theorem stagedEast_lookup (m : Mesh) (b : Bool) :
    lookupData (stagedEast m b).pointData GV_REMESH_POINT_IDS =
      some (writeMask
        (writeMask (idsOf (dropBoundary m b)) (boundaryMaskOf m) REMESH_SEAM)
        (boundaryMaskOf m) REMESH_SEAM_EAST) := by
  rw [stagedEast]
  exact lookupData_setData_self _ _ _

theorem extractCells_cells_length (m : Mesh) (mask : List Bool) :
    (extractCells m mask).cells.length = (keptVals m.cells mask).length := by
  simp [extractCells]

theorem extractCells_points_length (m : Mesh) (mask : List Bool) :
    (extractCells m mask).points.length =
      (usedPoints (keptVals m.cells mask) m.points.length).length := by
  simp [extractCells]

theorem extractCells_lookupPD (m : Mesh) (mask : List Bool) (k : String) :
    lookupData (extractCells m mask).pointData k =
      (lookupData m.pointData k).map
        (fun v => gather v (usedPoints (keptVals m.cells mask)
          m.points.length)) := by
  have h : (extractCells m mask).pointData =
      m.pointData.map (fun p => (p.1, gather p.2
        (usedPoints (keptVals m.cells mask) m.points.length))) := rfl
  rw [h]
  exact lookupData_map_snd m.pointData
    (fun v => gather v (usedPoints (keptVals m.cells mask) m.points.length)) k

theorem extractCells_lookupCD (m : Mesh) (mask : List Bool) (k : String) :
    lookupData (extractCells m mask).cellData k =
      (lookupData m.cellData k).map (fun v => keptVals v mask) := by
  have h : (extractCells m mask).cellData =
      m.cellData.map (fun p => (p.1, keptVals p.2 mask)) := rfl
  rw [h]
  exact lookupData_map_snd m.cellData (fun v => keptVals v mask) k

theorem joinPass_points (ext : Mesh) (s : ℤ) :
    (joinPass ext s).points = ext.points := rfl

theorem joinPass_cells (ext : Mesh) (s : ℤ) :
    (joinPass ext s).cells = ext.cells := rfl

theorem joinPass_cellData (ext : Mesh) (s : ℤ) :
    (joinPass ext s).cellData = ext.cellData := rfl

theorem joinPass_lookup (ext : Mesh) (s : ℤ) :
    lookupData (joinPass ext s).pointData GV_REMESH_POINT_IDS =
      some (overwriteJoin
        ((lookupData ext.pointData GV_REMESH_POINT_IDS).getD []) s) := by
  rw [joinPass]
  exact lookupData_setData_self _ _ _

theorem splitStage_fst (r : Mesh) (lons : List ℚ) (meridian : ℚ) (b : Bool) :
    (splitStage r lons meridian b).1 =
      { stagedEast r b with
        pointData := delData (stagedEast r b).pointData
          GV_REMESH_POINT_IDS } := rfl

theorem splitStage_west (r : Mesh) (lons : List ℚ) (meridian : ℚ) (b : Bool) :
    (splitStage r lons meridian b).2.1 =
      joinPass (extractCells (stagedWest r b) (westMaskList lons meridian))
        REMESH_SEAM := rfl

theorem splitStage_east (r : Mesh) (lons : List ℚ) (meridian : ℚ) (b : Bool) :
    (splitStage r lons meridian b).2.2 =
      joinPass (extractCells (stagedEast r b)
        ((westMaskList lons meridian).map not)) REMESH_SEAM_EAST := rfl

theorem tagMesh_cells (m : Mesh) : (tagMesh m).cells = m.cells := by
  cases hc : hasKey m.cellData GV_CELL_IDS <;>
    cases hp : hasKey m.pointData GV_POINT_IDS <;> simp [tagMesh, hc, hp]

theorem splitStage_fst_cells (r : Mesh) (lons : List ℚ) (meridian : ℚ)
    (b : Bool) : (splitStage r lons meridian b).1.cells = r.cells := by
  rw [splitStage_fst]
  exact stagedEast_cells r b

theorem splitStage_fst_pointData (r : Mesh) (lons : List ℚ) (meridian : ℚ)
    (b : Bool) :
    (splitStage r lons meridian b).1.pointData =
      delData (stagedEast r b).pointData GV_REMESH_POINT_IDS := rfl

/-! ### Concrete meshes used as witnesses and counterexamples -/

/-- A single-triangle mesh with no attribute arrays. -/
def oneTriMesh : Mesh := ⟨[(1, 0, 0), (0, 1, 0), (0, 0, 1)], [[0, 1, 2]], [], []⟩

/-- An intersected mesh in which both cells are fragments of the same
original cell (both carry `origin_cell_id = 5`), as the intersection
engine produces whenever it splits a cell that straddles the
meridian. -/
def sampleSharedIds : Mesh :=
  { points := [(1, 0, 0), (0, 1, 0), (0, 0, 1), (1, 1, 0)]
    cells := [[0, 1, 2], [0, 1, 3]]
    pointData := [(GV_POINT_IDS, [0, 1, 2, 3]), (VTK_BOUNDARY_MASK, [1, 0, 0, 0])]
    cellData := [(GV_CELL_IDS, [5, 5])] }

/-- An intersected mesh with two cells from distinct original cells. -/
def sampleSplitMesh : Mesh :=
  { points := [(1, 0, 0), (0, 1, 0), (0, 0, 1), (1, 1, 0)]
    cells := [[0, 1, 2], [0, 1, 3]]
    pointData := [(GV_POINT_IDS, [0, 1, 2, 3]), (VTK_BOUNDARY_MASK, [1, 0, 0, 0])]
    cellData := [(GV_CELL_IDS, [5, 6])] }

/-! ### Claim theorems -/

/-- C2: for every cell, with `delta = centroid longitude - meridian`
lying in `(-360, 360)`, the cell is classified west exactly when
`delta ∈ (-180, 0) ∪ (180, 360)`, and `delta = 0`, `-180` or `180`
classifies it east. -/
theorem C2_west_classification (lon meridian : ℚ)
    (h1 : -360 < lon - meridian) (h2 : lon - meridian < 360) :
    (cellIsWest lon meridian = true ↔
      ((-180 < lon - meridian ∧ lon - meridian < 0) ∨
        (180 < lon - meridian ∧ lon - meridian < 360))) ∧
    ((lon - meridian = 0 ∨ lon - meridian = -180 ∨ lon - meridian = 180) →
      cellIsWest lon meridian = false) := by
  constructor
  · simp only [cellIsWest, Bool.or_eq_true, Bool.and_eq_true,
      decide_eq_true_eq]
    constructor
    · rintro (⟨ha, hb⟩ | hc)
      · exact Or.inl ⟨hb, ha⟩
      · exact Or.inr ⟨hc, h2⟩
    · rintro (⟨ha, hb⟩ | ⟨hc, -⟩)
      · exact Or.inl ⟨hb, ha⟩
      · exact Or.inr hc
  · rintro (h | h | h) <;> norm_num [cellIsWest, h]

/-- Witness for C2 at `lon = -10, meridian = 0` (west) and
`lon = 180, meridian = 0` (tie resolving east). -/
theorem C2_west_classification_witness :
    cellIsWest (-10) 0 = true ∧ cellIsWest 180 0 = false := by
  constructor
  · exact ((C2_west_classification (-10) 0 (by norm_num) (by norm_num)).1).mpr
      (Or.inl (by norm_num))
  · exact (C2_west_classification 180 0 (by norm_num) (by norm_num)).2
      (by norm_num)

/-- C7: provenance tagging is idempotent — absent attributes are
created as the `0..n-1` sequences, present attributes are left
completely untouched, and tagging twice equals tagging once. -/
theorem C7_tagging_idempotent (m : Mesh) :
    tagMesh (tagMesh m) = tagMesh m ∧
    (if hasKey m.cellData GV_CELL_IDS then (tagMesh m).cellData = m.cellData
      else lookupData (tagMesh m).cellData GV_CELL_IDS =
        some ((List.range m.cells.length).map Int.ofNat)) ∧
    (if hasKey m.pointData GV_POINT_IDS then (tagMesh m).pointData = m.pointData
      else lookupData (tagMesh m).pointData GV_POINT_IDS =
        some ((List.range m.points.length).map Int.ofNat)) := by
  cases hc : hasKey m.cellData GV_CELL_IDS <;>
    cases hp : hasKey m.pointData GV_POINT_IDS <;>
      simp [tagMesh, hc, hp, hasKey_setData_self, lookupData_setData_self]

/-- C4: after the split, every point of the west half carries
`seam_class` equal to `REMESH_SEAM` or `REMESH_JOIN`, every point of
the east half carries `REMESH_SEAM_EAST` or `REMESH_JOIN`, the arrays
cover every point of each half, and in particular no west point
carries `REMESH_SEAM_EAST` and no east point carries `REMESH_SEAM`. -/
theorem C4_seam_marker_disjointness (remeshed : Mesh) (lons : List ℚ)
    (meridian : ℚ) (boundary : Bool) :
    ∃ wvals evals,
      lookupData (splitStage remeshed lons meridian boundary).2.1.pointData
          GV_REMESH_POINT_IDS = some wvals ∧
      lookupData (splitStage remeshed lons meridian boundary).2.2.pointData
          GV_REMESH_POINT_IDS = some evals ∧
      wvals.length =
        (splitStage remeshed lons meridian boundary).2.1.points.length ∧
      evals.length =
        (splitStage remeshed lons meridian boundary).2.2.points.length ∧
      (∀ x ∈ wvals, x = REMESH_SEAM ∨ x = REMESH_JOIN) ∧
      (∀ x ∈ evals, x = REMESH_SEAM_EAST ∨ x = REMESH_JOIN) ∧
      REMESH_SEAM_EAST ∉ wvals ∧ REMESH_SEAM ∉ evals := by
  rw [splitStage_west, splitStage_east]
  have hwbase : (lookupData (extractCells (stagedWest remeshed boundary)
        (westMaskList lons meridian)).pointData GV_REMESH_POINT_IDS).getD [] =
      gather (writeMask (idsOf (dropBoundary remeshed boundary))
          (boundaryMaskOf remeshed) REMESH_SEAM)
        (usedPoints (keptVals (stagedWest remeshed boundary).cells
            (westMaskList lons meridian))
          (stagedWest remeshed boundary).points.length) := by
    rw [extractCells_lookupPD, stagedWest_lookup]
    rfl
  have hebase : (lookupData (extractCells (stagedEast remeshed boundary)
        ((westMaskList lons meridian).map not)).pointData
          GV_REMESH_POINT_IDS).getD [] =
      gather (writeMask
          (writeMask (idsOf (dropBoundary remeshed boundary))
            (boundaryMaskOf remeshed) REMESH_SEAM)
          (boundaryMaskOf remeshed) REMESH_SEAM_EAST)
        (usedPoints (keptVals (stagedEast remeshed boundary).cells
            ((westMaskList lons meridian).map not))
          (stagedEast remeshed boundary).points.length) := by
    rw [extractCells_lookupPD, stagedEast_lookup]
    rfl
  refine ⟨_, _, joinPass_lookup _ _, joinPass_lookup _ _, ?_, ?_, ?_, ?_, ?_, ?_⟩
  · rw [overwriteJoin_length, hwbase, gather_length, joinPass_points,
      extractCells_points_length]
  · rw [overwriteJoin_length, hebase, gather_length, joinPass_points,
      extractCells_points_length]
  · intro x hx
    exact mem_overwriteJoin _ _ _ hx
  · intro x hx
    exact mem_overwriteJoin _ _ _ hx
  · intro hx
    rcases mem_overwriteJoin _ _ _ hx with h | h <;>
      norm_num [REMESH_SEAM_EAST, REMESH_SEAM, REMESH_JOIN] at h
  · intro hx
    rcases mem_overwriteJoin _ _ _ hx with h | h <;>
      norm_num [REMESH_SEAM_EAST, REMESH_SEAM, REMESH_JOIN] at h

/-- C3 (amended): the west and east cell counts add up to the remeshed
cell count, each half's `origin_cell_id` array is the mask-selected
sublist of the remeshed mesh's array, and together the two halves cover
the remeshed mesh's `origin_cell_id` values exactly (as a
permutation).  The two halves are disjoint as sub-collections of the
remeshed mesh's cells, but not by `origin_cell_id` value. -/
theorem C3_partition (remeshed : Mesh) (lons : List ℚ) (meridian : ℚ)
    (boundary : Bool) (cids : List ℤ)
    (hlen : lons.length = remeshed.cells.length)
    (hcids : lookupData remeshed.cellData GV_CELL_IDS = some cids)
    (hclen : cids.length = remeshed.cells.length) :
    (splitStage remeshed lons meridian boundary).2.1.cells.length +
        (splitStage remeshed lons meridian boundary).2.2.cells.length =
      (splitStage remeshed lons meridian boundary).1.cells.length ∧
    lookupData (splitStage remeshed lons meridian boundary).2.1.cellData
        GV_CELL_IDS = some (keptVals cids (westMaskList lons meridian)) ∧
    lookupData (splitStage remeshed lons meridian boundary).2.2.cellData
        GV_CELL_IDS =
      some (keptVals cids ((westMaskList lons meridian).map not)) ∧
    (keptVals cids (westMaskList lons meridian) ++
        keptVals cids ((westMaskList lons meridian).map not)).Perm cids := by
  have hwm : (westMaskList lons meridian).length = remeshed.cells.length := by
    simpa [westMaskList] using hlen
  refine ⟨?_, ?_, ?_, ?_⟩
  · rw [splitStage_west, splitStage_east, splitStage_fst_cells, joinPass_cells,
      joinPass_cells, extractCells_cells_length, extractCells_cells_length,
      stagedWest_cells, stagedEast_cells]
    exact keptVals_length_add remeshed.cells (westMaskList lons meridian) hwm
  · rw [splitStage_west, joinPass_cellData, extractCells_lookupCD,
      stagedWest_cellData, hcids]
    rfl
  · rw [splitStage_east, joinPass_cellData, extractCells_lookupCD,
      stagedEast_cellData, hcids]
    rfl
  · exact perm_keptVals_append cids (westMaskList lons meridian)
      (by rw [hwm, hclen])

/-- Witness for C3 on a concrete two-cell intersected mesh with
distinct origin cell ids, cut at meridian 0 with centroid longitudes
-10 (west) and 10 (east). -/
theorem C3_partition_witness :
    (splitStage sampleSplitMesh [-10, 10] 0 false).2.1.cells.length +
        (splitStage sampleSplitMesh [-10, 10] 0 false).2.2.cells.length =
      (splitStage sampleSplitMesh [-10, 10] 0 false).1.cells.length :=
  (C3_partition sampleSplitMesh [-10, 10] 0 false [5, 6] rfl rfl rfl).1

/-- Counterexample for C3 as stated: an intersected mesh whose two
cells are fragments of the same original cell (`origin_cell_id = 5` on
both), one classified west and one east, so the two halves both carry
origin id 5 — their `origin_cell_id` sets are not disjoint — while the
cell counts still add up. -/
theorem C3_origin_ids_shared_across_halves :
    lookupData (splitStage sampleSharedIds [-10, 10] 0 false).2.1.cellData
        GV_CELL_IDS = some [5] ∧
    lookupData (splitStage sampleSharedIds [-10, 10] 0 false).2.2.cellData
        GV_CELL_IDS = some [5] ∧
    (splitStage sampleSharedIds [-10, 10] 0 false).2.1.cells.length +
        (splitStage sampleSharedIds [-10, 10] 0 false).2.2.cells.length =
      (splitStage sampleSharedIds [-10, 10] 0 false).1.cells.length := by
  have hmask : westMaskList [-10, 10] 0 = [true, false] := by
    norm_num [westMaskList, cellIsWest]
  rw [splitStage_west, splitStage_east, hmask]
  exact ⟨rfl, rfl, rfl⟩

/-- C1 (amended): when the input mesh is nonempty but the intersection
engine's split output has zero cells (the meridian misses the mesh),
`remesh` returns that zero-cell intersection output as `remeshed` —
not a copy of the tagged input, from which it differs — together with
two empty meshes for west and east. -/
theorem C1_no_intersection_returns_empty (calcRadius : Mesh → ℚ)
    (intersect : Mesh → Patch → IntersectOut) (mesh : Mesh) (meridian0 : ℚ)
    (boundary check warnings warnDisplay : Bool)
    (hne : mesh.cells.length ≠ 0)
    (hout : ∀ patch,
      (intersect (remeshPoly0 mesh) patch).mesh.cells.length = 0) :
    ∃ o, (remesh calcRadius intersect mesh meridian0 boundary check warnings
        warnDisplay).1 = .ok (o, emptyMesh, emptyMesh) ∧
      o.cells.length = 0 ∧ o ≠ tagMesh mesh := by
  refine ⟨(intersect (remeshPoly0 mesh)
      ⟨triangulateMesh (pvPlane (calcRadius mesh)), wrap meridian0⟩).mesh,
    ?_, hout _, ?_⟩
  · simp only [remesh, buildCuttingSurface]
    rw [if_neg hne]
    simp [hout]
  · intro he
    have h1 := hout
      ⟨triangulateMesh (pvPlane (calcRadius mesh)), wrap meridian0⟩
    rw [he, tagMesh_cells] at h1
    exact hne h1

/-- Witness for C1 on the one-triangle mesh with an intersection
engine returning the empty mesh. -/
theorem C1_no_intersection_witness :
    ∃ o, (remesh (fun _ => 1) (fun _ _ => ⟨emptyMesh, []⟩) oneTriMesh 0
        false false false true).1 = .ok (o, emptyMesh, emptyMesh) ∧
      o.cells.length = 0 ∧ o ≠ tagMesh oneTriMesh :=
  C1_no_intersection_returns_empty (fun _ => 1) (fun _ _ => ⟨emptyMesh, []⟩)
    oneTriMesh 0 false false false true (by simp [oneTriMesh])
    (fun _ => rfl)

/-- Counterexample for C1 as stated: on the one-triangle input with a
non-intersecting meridian, the returned `remeshed` is the zero-cell
intersection output, while the tagged copy of the input has one cell —
the claim's `copy_of_original_tagged_mesh` is not what is returned. -/
theorem C1_remeshed_is_not_tagged_copy :
    (remesh (fun _ => 1) (fun _ _ => ⟨emptyMesh, []⟩) oneTriMesh 0
        false false false true).1 = .ok (emptyMesh, emptyMesh, emptyMesh) ∧
    emptyMesh.cells.length = 0 ∧ (tagMesh oneTriMesh).cells.length = 1 ∧
    emptyMesh ≠ tagMesh oneTriMesh := by
  refine ⟨rfl, rfl, by rw [tagMesh_cells]; rfl, ?_⟩
  intro he
  have h1 : emptyMesh.cells.length = (tagMesh oneTriMesh).cells.length := by
    rw [he]
  rw [tagMesh_cells] at h1
  simp [emptyMesh, oneTriMesh] at h1

/-- C5: `remesh` on a mesh with zero cells fails immediately with the
empty-mesh error and produces no output triple. -/
theorem C5_empty_mesh_error (calcRadius : Mesh → ℚ)
    (intersect : Mesh → Patch → IntersectOut) (mesh : Mesh) (meridian0 : ℚ)
    (boundary check warnings warnDisplay : Bool)
    (h : mesh.cells.length = 0) :
    (remesh calcRadius intersect mesh meridian0 boundary check warnings
        warnDisplay).1 = .error .emptyMesh := by
  simp [remesh, h]

/-- Witness for C5 at the empty mesh. -/
theorem C5_empty_mesh_error_witness :
    (remesh (fun _ => 1) (fun _ _ => ⟨emptyMesh, []⟩) emptyMesh 0 false false
        false true).1 = .error .emptyMesh :=
  C5_empty_mesh_error (fun _ => 1) (fun _ _ => ⟨emptyMesh, []⟩) emptyMesh 0
    false false false true rfl

/-- C10: with warning suppression enabled (the default
`warnings=False`), the empty-mesh error is raised after the global
warning display has been switched off and before it is switched back
on, so the global flag is left disabled on the error path, whatever
its initial state. -/
theorem C10_warning_state_not_restored (calcRadius : Mesh → ℚ)
    (intersect : Mesh → Patch → IntersectOut) (mesh : Mesh) (meridian0 : ℚ)
    (boundary check warnDisplay : Bool)
    (h : mesh.cells.length = 0) :
    remesh calcRadius intersect mesh meridian0 boundary check false
        warnDisplay = (.error .emptyMesh, false) := by
  simp [remesh, h]

/-- Witness for C10 at the empty mesh with the warning display
initially enabled. -/
theorem C10_warning_state_not_restored_witness :
    remesh (fun _ => 1) (fun _ _ => ⟨emptyMesh, []⟩) emptyMesh 0 false false
        false true = (.error .emptyMesh, false) :=
  C10_warning_state_not_restored (fun _ => 1) (fun _ _ => ⟨emptyMesh, []⟩)
    emptyMesh 0 false false true rfl

theorem stagedWest_pointData (m : Mesh) (b : Bool) :
    (stagedWest m b).pointData =
      setData (dropBoundary m b).pointData GV_REMESH_POINT_IDS
        (writeMask (idsOf (dropBoundary m b)) (boundaryMaskOf m)
          REMESH_SEAM) := rfl

theorem stagedEast_pointData (m : Mesh) (b : Bool) :
    (stagedEast m b).pointData =
      setData (stagedWest m b).pointData GV_REMESH_POINT_IDS
        (writeMask
          (writeMask (idsOf (dropBoundary m b)) (boundaryMaskOf m) REMESH_SEAM)
          (boundaryMaskOf m) REMESH_SEAM_EAST) := rfl

theorem hasKey_dropBoundary (m : Mesh) (b : Bool) :
    hasKey (dropBoundary m b).pointData VTK_BOUNDARY_MASK =
      (b && hasKey m.pointData VTK_BOUNDARY_MASK) := by
  cases b with
  | false =>
    simp only [Bool.false_and]
    exact hasKey_delData_self m.pointData VTK_BOUNDARY_MASK
  | true => simp [dropBoundary]

theorem hasKey_splitStage_fst (r : Mesh) (lons : List ℚ) (meridian : ℚ)
    (b : Bool) :
    hasKey (splitStage r lons meridian b).1.pointData VTK_BOUNDARY_MASK =
      (b && hasKey r.pointData VTK_BOUNDARY_MASK) := by
  have hne : VTK_BOUNDARY_MASK ≠ GV_REMESH_POINT_IDS := by decide
  rw [splitStage_fst_pointData, hasKey_delData_ne _ _ _ hne,
    stagedEast_pointData, hasKey_setData_ne _ _ _ _ hne,
    stagedWest_pointData, hasKey_setData_ne _ _ _ _ hne, hasKey_dropBoundary]

/-- C6: the remeshed output of an intersecting `remesh` run carries the
boundary mask point array exactly when the caller requested it (the
intersection engine always generates it), and never carries the
transient `GV_REMESH_POINT_IDS` staging array. -/
theorem C6_boundary_mask_policy (calcRadius : Mesh → ℚ)
    (intersect : Mesh → Patch → IntersectOut) (mesh : Mesh) (meridian0 : ℚ)
    (boundary check warnings warnDisplay : Bool)
    (hne : mesh.cells.length ≠ 0)
    (hcells : ∀ patch,
      (intersect (remeshPoly0 mesh) patch).mesh.cells.length ≠ 0)
    (hbm : ∀ patch, hasKey (intersect (remeshPoly0 mesh) patch).mesh.pointData
      VTK_BOUNDARY_MASK = true) :
    ∃ r w e, (remesh calcRadius intersect mesh meridian0 boundary check
        warnings warnDisplay).1 = .ok (r, w, e) ∧
      hasKey r.pointData VTK_BOUNDARY_MASK = boundary ∧
      hasKey r.pointData GV_REMESH_POINT_IDS = false := by
  have hres : (remesh calcRadius intersect mesh meridian0 boundary check
      warnings warnDisplay).1 =
      .ok (splitStage (intersect (remeshPoly0 mesh)
          ⟨triangulateMesh (pvPlane (calcRadius mesh)), wrap meridian0⟩).mesh
        (intersect (remeshPoly0 mesh)
          ⟨triangulateMesh (pvPlane (calcRadius mesh)), wrap meridian0⟩).lons
        (wrap meridian0) boundary) := by
    simp only [remesh, buildCuttingSurface]
    rw [if_neg hne]
    simp [hcells]
  refine ⟨_, _, _, hres, ?_, ?_⟩
  · have h1 := hasKey_splitStage_fst (intersect (remeshPoly0 mesh)
        ⟨triangulateMesh (pvPlane (calcRadius mesh)), wrap meridian0⟩).mesh
      (intersect (remeshPoly0 mesh)
        ⟨triangulateMesh (pvPlane (calcRadius mesh)), wrap meridian0⟩).lons
      (wrap meridian0) boundary
    rw [hbm, Bool.and_true] at h1
    exact h1
  · show hasKey (delData (stagedEast (intersect (remeshPoly0 mesh)
        ⟨triangulateMesh (pvPlane (calcRadius mesh)),
          wrap meridian0⟩).mesh boundary).pointData
        GV_REMESH_POINT_IDS) GV_REMESH_POINT_IDS = false
    exact hasKey_delData_self _ _

/-- Witness for C6: a one-triangle input, an engine output with the
boundary mask present, and the mask requested by the caller. -/
theorem C6_boundary_mask_policy_witness :
    ∃ r w e, (remesh (fun _ => 1) (fun _ _ => ⟨sampleSplitMesh, [-10, 10]⟩)
        oneTriMesh 0 true false false true).1 = .ok (r, w, e) ∧
      hasKey r.pointData VTK_BOUNDARY_MASK = true ∧
      hasKey r.pointData GV_REMESH_POINT_IDS = false :=
  C6_boundary_mask_policy (fun _ => 1)
    (fun _ _ => ⟨sampleSplitMesh, [-10, 10]⟩) oneTriMesh 0 true false false
    true (by simp [oneTriMesh]) (fun _ => by simp [sampleSplitMesh])
    (fun _ => rfl)

/-- C8 (amended): the cutting-surface builder has no failure mode at
all — for every radius, including nonpositive ones, it produces the
two-triangle patch; the source performs no radius validation. -/
theorem C8_builder_never_fails (radius meridian : ℚ) :
    buildCuttingSurface radius meridian =
      .ok ⟨triangulateMesh (pvPlane radius), meridian⟩ ∧
    (triangulateMesh (pvPlane radius)).cells.length = 2 := ⟨rfl, rfl⟩

/-- Counterexample for C8 as stated: at `radius = -1 ≤ 0` the
construction does not fail with an invalid-argument error — it
succeeds and produces the patch. -/
theorem C8_nonpositive_radius_not_rejected :
    (-1 : ℚ) ≤ 0 ∧
    buildCuttingSurface (-1) 0 = .ok ⟨triangulateMesh (pvPlane (-1)), 0⟩ ∧
    (triangulateMesh (pvPlane (-1))).cells.length = 2 :=
  ⟨by norm_num, rfl, rfl⟩

/-- C9: on a non-`UnstructuredGrid` input the surface extraction does
not raise the intended `TypeError` naming the expected kind — the
message expression `type(mesh).split(" ")` itself raises
`AttributeError` first (or `IndexError` for a `str` input). -/
theorem C9_cast_raises_attribute_error :
    cast_UnstructuredGrid_to_PolyData (.pyInt 0) false =
      .error (.attributeError "type object has no attribute 'split'") ∧
    cast_UnstructuredGrid_to_PolyData (.pyStr "not a mesh") false =
      .error .indexError := ⟨rfl, rfl⟩
